import Mathlib

/-!
Verification of the iterative healing pipeline (backend/agents.py and
backend/docker_runner.py) of the AI-agents repository.

The Python code is shallowly embedded: pure string-processing functions are
translated to executable Lean functions over `String`/`List Char`; the
filesystem is passed explicitly as a map from (resolved) paths to contents;
the subprocess/LLM collaborators are parameters.  All definitions follow the
source line by line; helper functions named `py...` model the corresponding
Python `str` methods (ASCII-faithful; CPython's exotic Unicode corners such
as underscore digit grouping in `int()` are noted where they are not
modelled).
-/

namespace AIHeal

/-! ## Python string-method models -/

/-- Whitespace characters stripped by Python `str.strip()` (ASCII subset). -/
def pyWsChars : List Char := [' ', '\t', '\n', '\x0d', '\x0b', '\x0c']

def isPyWs (c : Char) : Bool := pyWsChars.contains c

/-- Model of Python `str.strip()` (no arguments). -/
def pyStrip (s : String) : String :=
  ⟨((s.data.dropWhile isPyWs).reverse.dropWhile isPyWs).reverse⟩

/-- Model of Python `str.lstrip(ch)` for a single character argument. -/
def pyLStripChar (s : String) (c : Char) : String :=
  ⟨s.data.dropWhile (fun x => x == c)⟩

/-- Model of Python `str.rstrip(ch)` for a single character argument. -/
def pyRStripChar (s : String) (c : Char) : String :=
  ⟨(s.data.reverse.dropWhile (fun x => x == c)).reverse⟩

/-- Does `l` start with `pat`? (model of Python `str.startswith` on chars). -/
def startsWithList : List Char → List Char → Bool
  | _, [] => true
  | [], _ :: _ => false
  | a :: as, b :: bs => a == b && startsWithList as bs

def startsWithStr (s pat : String) : Bool := startsWithList s.data pat.data

/-- Does `pat` occur as a contiguous substring of `l`?
(model of Python's `pat in s`). -/
def containsList : List Char → List Char → Bool
  | [], pat => pat.isEmpty
  | h :: t, pat => startsWithList (h :: t) pat || containsList t pat

def containsSub (s pat : String) : Bool := containsList s.data pat.data

/-- Index of the first occurrence of character `c`, if any. -/
def findCharIdx : List Char → Char → Option Nat
  | [], _ => none
  | h :: t, c => if h == c then some 0 else (findCharIdx t c).map (· + 1)

/-- Model of Python `str.find(c, start)` for a single character `c`
(successful case; `none` plays the role of `-1`). -/
def findCharFrom (s : String) (c : Char) (start : Nat) : Option Nat :=
  (findCharIdx (s.data.drop start) c).map (· + start)

/-- Model of the Python slice `s[a:b]` for `0 ≤ a, b`. -/
def strSlice (s : String) (a b : Nat) : String := ⟨(s.data.take b).drop a⟩

/-- Model of the Python slice `s[:n]`. -/
def strTake (s : String) (n : Nat) : String := ⟨s.data.take n⟩

/-- Model of the Python slice `s[n:]`. -/
def strDrop (s : String) (n : Nat) : String := ⟨s.data.drop n⟩

/-- Auxiliary splitter for `str.split(sep)` with non-empty `sep = sc :: srest`:
splits on every non-overlapping leftmost occurrence, keeping empty pieces.
Structural recursion on a fuel argument; every step consumes at least one
character, so fuel equal to the input length is never exhausted. -/
def splitOnListAux (sc : Char) (srest : List Char) : Nat → List Char →
    List Char → List (List Char)
  | _, [], acc => [acc.reverse]
  | 0, _ :: _, acc => [acc.reverse]
  | fuel + 1, h :: t, acc =>
    if startsWithList (h :: t) (sc :: srest) then
      acc.reverse :: splitOnListAux sc srest fuel (t.drop srest.length) []
    else
      splitOnListAux sc srest fuel t (h :: acc)

/-- Model of Python `str.split(sep)` for a non-empty separator. -/
def pySplitOnStr (s sep : String) : List String :=
  match sep.data with
  | [] => [s]
  | c :: cs => (splitOnListAux c cs s.data.length s.data []).map (fun l => ⟨l⟩)

/-- Split on a single character (Python `str.split("/")` etc.). -/
def splitOnCharAux (c : Char) : List Char → List Char → List (List Char)
  | [], acc => [acc.reverse]
  | h :: t, acc =>
    if h == c then acc.reverse :: splitOnCharAux c t []
    else splitOnCharAux c t (h :: acc)

def splitOnChar (s : String) (c : Char) : List String :=
  (splitOnCharAux c s.data []).map (fun l => ⟨l⟩)

/-- Model of Python `str.split(sep, 1)`: `none` when `sep` does not occur,
otherwise the parts before and after the first occurrence. -/
def splitOnceAux (pat : List Char) : List Char → List Char →
    Option (List Char × List Char)
  | [], _ => none
  | h :: t, acc =>
    if startsWithList (h :: t) pat then
      some (acc.reverse, (h :: t).drop pat.length)
    else splitOnceAux pat t (h :: acc)

def splitOnceStr (s pat : String) : Option (String × String) :=
  (splitOnceAux pat.data s.data []).map (fun p => (⟨p.1⟩, ⟨p.2⟩))

/-- Model of Python `str.rsplit(c, 1)` for a single character:
`none` when `c` does not occur. -/
def rsplitOnceChar (s : String) (c : Char) : Option (String × String) :=
  match findCharIdx s.data.reverse c with
  | none => none
  | some ri =>
    let i := s.data.length - 1 - ri
    some (⟨s.data.take i⟩, ⟨s.data.drop (i + 1)⟩)

/-- Model of Python `str.split()` (no arguments): split on whitespace runs,
dropping empty pieces. -/
def splitWsAux : List Char → List Char → List String
  | [], acc => if acc.isEmpty then [] else [⟨acc.reverse⟩]
  | h :: t, acc =>
    if isPyWs h then
      if acc.isEmpty then splitWsAux t [] else ⟨acc.reverse⟩ :: splitWsAux t []
    else splitWsAux t (h :: acc)

def pySplitWs (s : String) : List String := splitWsAux s.data []

/-- Model of Python `int(s)`: optional surrounding whitespace, optional sign,
a non-empty digit string (CPython's underscore digit grouping is not
modelled; runner outputs carry plain digit line numbers). -/
def allDigits (l : List Char) : Bool :=
  !l.isEmpty && l.all (fun c => '0' ≤ c && c ≤ '9')

def digitsToNat (l : List Char) : Nat :=
  l.foldl (fun n c => n * 10 + (c.toNat - '0'.toNat)) 0

def pyInt (s : String) : Option Int :=
  match (pyStrip s).data with
  | '-' :: rest => if allDigits rest then some (-(digitsToNat rest : Int)) else none
  | '+' :: rest => if allDigits rest then some (digitsToNat rest : Int) else none
  | l => if allDigits l then some (digitsToNat l : Int) else none

/-- ASCII model of Python `str.lower()` (all keyword matching in the source
is over ASCII keywords). -/
def lowerChar (c : Char) : Char :=
  if 'A' ≤ c && c ≤ 'Z' then Char.ofNat (c.toNat + 32) else c

def pyLowerStr (s : String) : String := ⟨s.data.map lowerChar⟩

/-- Model of Python `str.replace("\\", "/")`. -/
def replaceBackslash (s : String) : String :=
  ⟨s.data.map (fun c => if c == '\\' then '/' else c)⟩

/-- Model of Python `"/".join(parts)` and friends. -/
def joinWith (sep : String) : List String → String
  | [] => ""
  | [x] => x
  | x :: y :: rest => x ++ sep ++ joinWith sep (y :: rest)

/-- Line-boundary characters recognised by Python `str.splitlines()`. -/
def lineBreakChars : List Char :=
  ['\n', '\x0d', '\x0b', '\x0c', Char.ofNat 0x1c, Char.ofNat 0x1d,
   Char.ofNat 0x1e, Char.ofNat 0x85, Char.ofNat 0x2028, Char.ofNat 0x2029]

/-- Auxiliary for `str.splitlines()`: `\r\n` counts as one boundary and a
trailing boundary produces no empty final line. -/
def splitLinesAux : List Char → List Char → List String
  | [], acc => if acc.isEmpty then [] else [⟨acc.reverse⟩]
  | '\x0d' :: '\n' :: t, acc => ⟨acc.reverse⟩ :: splitLinesAux t []
  | c :: t, acc =>
    if lineBreakChars.contains c then ⟨acc.reverse⟩ :: splitLinesAux t []
    else splitLinesAux t (c :: acc)

/-- Model of Python `str.splitlines()`. -/
def pySplitLines (s : String) : List String := splitLinesAux s.data []

/-- Final path component (model of `pathlib.PurePosixPath.name`). -/
def lastComponent (p : String) : String :=
  match (splitOnChar p '/').getLast? with
  | some s => s
  | none => p

/-- Model of `pathlib.Path.suffix`: the extension of the final component,
present only when the last dot is neither first nor last in the name. -/
def pathSuffix (p : String) : String :=
  let name := lastComponent p
  match findCharIdx name.data.reverse '.' with
  | none => ""
  | some ri =>
    let i := name.data.length - 1 - ri
    if 0 < i && i < name.data.length - 1 then strDrop name i else ""

/-- Model of `Path(dir) / rel` followed by `str(...)` on POSIX: an absolute
`rel` replaces `dir`, otherwise the two are joined with a slash. -/
def joinPath (dir rel : String) : String :=
  if startsWithStr rel "/" then rel else dir ++ "/" ++ rel

/-- Lexical resolution of an absolute path as the OS performs it on
`exists()`/`read_text()`/`write_text()`: `.` and empty segments vanish and
`..` pops one segment (symlinks are not modelled).  The explicit filesystem
maps below are keyed by resolved paths. -/
def normalizePath (p : String) : String :=
  let segs := (splitOnChar p '/').filter (fun s => s != "" && s != ".")
  let resolved := segs.foldl
    (fun acc s => if s == ".." then acc.dropLast else acc ++ [s]) ([] : List String)
  "/" ++ joinWith "/" resolved

/-! ## Data model (docker_runner.py) -/

/-- One parsed failure record, the dicts built throughout docker_runner.py:
`\x7b file, line, error_message, bug_type \x7d`. -/
structure Failure where
  file : String
  line : Int
  error_message : String
  bug_type : String
deriving DecidableEq

/-- docker_runner.TestResult. -/
structure TestResult where
  test_file : String
  passed : Bool
  stdout : String
  stderr : String
  failures : List Failure
deriving DecidableEq

/-! ## FailureClassifier (docker_runner._classify_bug, lines 369-385) -/

/-- Keyword chain of docker_runner._classify_bug over the already
lower-cased text `t`, first match wins. -/
def classifyKeywords (t : String) : String :=
  if containsSub t "indentationerror" || containsSub t "unexpected indent" ||
     containsSub t "indentation" then "INDENTATION"
  else if containsSub t "syntaxerror" || containsSub t "invalid syntax" ||
     containsSub t "syntax" || containsSub t "colon" || containsSub t "missing" then "SYNTAX"
  else if containsSub t "importerror" || containsSub t "modulenotfounderror" ||
     containsSub t "cannot import" then "IMPORT"
  else if containsSub t "typeerror" || containsSub t "type error" ||
     containsSub t "unsupported operand" then "TYPE_ERROR"
  else if containsSub t "flake8" || containsSub t "pylint" || containsSub t "pep8" ||
     containsSub t "lint" || containsSub t "unused" || containsSub t "import" then "LINTING"
  else "LOGIC"

/-- docker_runner._classify_bug: keyword classification over the lower-cased
concatenation of the diagnostic text and the full output (`t = (text + " " +
full_output).lower()`), first match wins. -/
def _classify_bug (text : String) (full_output : String) : String :=
  classifyKeywords (pyLowerStr (text ++ " " ++ full_output))

/-! ## OutputParser (docker_runner._parse_failures, lines 238-366) -/

/-- Exception-name tokens recognised in the traceback lookahead
(docker_runner.py line 273). -/
def errorTokens : List String :=
  ["SyntaxError", "IndentationError", "NameError", "TypeError", "AttributeError",
   "ImportError", "FileNotFoundError", "ModuleNotFoundError"]

/-- Lookahead over the next three lines for an exception-name token
(docker_runner.py lines 267-278); falls back to the generic message. -/
def shapeAErrMsg (rest : List String) : String :=
  match (rest.take 3).find?
      (fun nl => errorTokens.any (fun e => containsSub (pyStrip nl) e)) with
  | some nl => pyStrip nl
  | none => "Error detected in this file (check traceback)"

/-- Path extraction of the traceback shape: everything between the first and
second double quote on the line; with no closing quote Python's `find` returns
`-1` and the slice `line[path_start:-1]` drops the last character
(docker_runner.py lines 257-261). -/
def shapeARawPath (line : String) : String :=
  let ps := match findCharFrom line '"' 0 with
    | none => 0
    | some i => i + 1
  match findCharFrom line '"' ps with
  | some pe => strSlice line ps pe
  | none => strSlice line ps (line.data.length - 1)

/-- Line-number extraction of the traceback shape:
`line.split(sep)[1].split()[0].rstrip(",")` fed to `int`, where the
`IndexError`/`ValueError` cases give `none` (docker_runner.py lines 263-265,
298-299). -/
def shapeALineNo (line : String) : Option Int :=
  match (pySplitOnStr line "\", line ").drop 1 with
  | [] => none
  | second :: _ =>
    match pySplitWs second with
    | [] => none
    | tok :: _ => pyInt (pyRStripChar tok ',')

/-- Rewriting of workspace paths: everything up to and including the
`cloned_repos` segment plus the run subfolder is stripped
(docker_runner.py lines 281-287 and 324-330). -/
def rewriteClonedRepos (raw_path : String) : String :=
  let rp := replaceBackslash raw_path
  if containsSub rp "cloned_repos" then
    let parts := splitOnChar rp '/'
    match parts.findIdx? (fun s => s == "cloned_repos") with
    | some idx =>
      if idx + 2 < parts.length then joinWith "/" (parts.drop (idx + 2))
      else raw_path
    | none => raw_path
  else raw_path

/-- Body of the `File "<path>", line <N>` shape (docker_runner.py
lines 255-299), applied to the stripped line; `none` covers both the caught
`IndexError`/`ValueError` cases and the vendored-path filter. -/
def processShapeA (line : String) (rest : List String) (output : String) :
    Option Failure :=
  let raw_path := shapeARawPath line
  match shapeALineNo line with
  | none => none
  | some lineno =>
    let error_msg := shapeAErrMsg rest
    let source_file := rewriteClonedRepos raw_path
    if containsSub raw_path "site-packages" || containsSub raw_path ".venv" then none
    else some { file := source_file, line := lineno, error_message := error_msg,
                bug_type := _classify_bug (error_msg ++ " " ++ output) "" }

/-- Body of the `<path>:<line>: <message>` shape (docker_runner.py
lines 303-339), applied to the stripped line. -/
def processShapeB (line : String) (output : String) : Option Failure :=
  if containsSub line "site-packages" || containsSub line ".venv" ||
     containsSub line "AppData" then none
  else
    match splitOnceStr line ": " with
    | none => none
    | some parts =>
      let file_line_part := pyStrip (pyLStripChar (pyStrip parts.1) 'E')
      let error_msg := pyStrip parts.2
      match rsplitOnceChar file_line_part ':' with
      | none => none
      | some pp =>
        let lineno := (pyInt pp.2).getD 0
        let source_file := rewriteClonedRepos pp.1
        some { file := source_file, line := lineno, error_message := error_msg,
               bug_type := _classify_bug (error_msg ++ " " ++ output) "" }

/-- Entry condition of the traceback shape (docker_runner.py line 255). -/
def entryA (line : String) : Bool :=
  containsSub line "File \"" && containsSub line ".py\", line "

/-- Entry condition of the colon-delimited shape (docker_runner.py
line 303). -/
def entryB (line : String) : Bool :=
  containsSub line ".py:" && containsSub line ": "

/-- Tier-1 scan of docker_runner._parse_failures (lines 247-341): one line is
consumed per loop iteration, each line is stripped, shape A is tried before
shape B, and the `found_specific_src` flag is true exactly when the returned
list is non-empty. -/
def parseTier1 (output : String) : List String → List Failure
  | [] => []
  | l :: rest =>
    let s := pyStrip l
    if entryA s then
      match processShapeA s rest output with
      | some f => f :: parseTier1 output rest
      | none => parseTier1 output rest
    else if entryB s then
      match processShapeB s output with
      | some f => f :: parseTier1 output rest
      | none => parseTier1 output rest
    else parseTier1 output rest

/-- Tier-2 trigger (docker_runner.py line 346): the raw, unstripped line
contains `::ERROR`, or both `FAILED` and `::`. -/
def tier2Trigger (line : String) : Bool :=
  containsSub line "::ERROR" || (containsSub line "FAILED" && containsSub line "::")

/-- Tier-2 fallback (docker_runner.py lines 344-354): every trigger line is
attributed to the test file itself with line 0. -/
def parseTier2 (output test_file : String) (lines : List String) : List Failure :=
  lines.filterMap (fun line =>
    if tier2Trigger line then
      some { file := test_file, line := 0, error_message := pyStrip line,
             bug_type := _classify_bug (pyStrip line) output }
    else none)

/-- Deduplication key (docker_runner.py line 360):
`(file, line, error_message[:100])`. -/
def failKey (f : Failure) : String × Int × String :=
  (f.file, f.line, strTake f.error_message 100)

/-- First-occurrence deduplication with an explicit `seen` set
(docker_runner.py lines 356-363). -/
def dedupAux (seen : List (String × Int × String)) : List Failure → List Failure
  | [] => []
  | f :: rest =>
    if failKey f ∈ seen then dedupAux seen rest
    else f :: dedupAux (failKey f :: seen) rest

/-- docker_runner._parse_failures: tier 1, tier-2 fallback only when tier 1
found nothing, then deduplication. -/
def _parse_failures (output test_file : String) : List Failure :=
  dedupAux []
    (if (parseTier1 output (pySplitLines output)).isEmpty then
       parseTier2 output test_file (pySplitLines output)
     else parseTier1 output (pySplitLines output))

/-! ## Shared execution (docker_runner._execute_and_parse, lines 165-235) -/

/-- Outcome of the `subprocess.run` call: normal completion with a return
code, `subprocess.TimeoutExpired`, or any other spawn/run exception with its
message text. -/
inductive ProcOutcome where
  | completed (returncode : Int) (stdout stderr : String)
  | timedOut
  | spawnError (msg : String)
deriving DecidableEq

/-- Did the execution fail (nonzero exit, timeout, or spawn error)? -/
def procFailed : ProcOutcome → Bool
  | .completed rc _ _ => rc != 0
  | .timedOut => true
  | .spawnError _ => true

/-- docker_runner._execute_and_parse: parse the combined output; on a failed
run with no parsed failures append the generic LOGIC failure; the timeout and
exception handlers each return a single LOGIC failure.  The Python function
never raises — every branch returns a TestResult, which this total function
mirrors. -/
def logicFailure (test_file msg : String) : Failure :=
  { file := test_file, line := 0, error_message := msg, bug_type := "LOGIC" }

/-- The generic execution failure appended when a failed run parsed nothing
(docker_runner.py lines 193-199). -/
def execGenericFailure (test_file : String) (rc : Int) (combined : String) : Failure :=
  logicFailure test_file
    ("Test runner execution failed (return code " ++ toString rc ++ ").\n" ++
     pyStrip combined)

def _execute_and_parse (test_file : String) (proc : ProcOutcome) : TestResult :=
  match proc with
  | .completed rc stdout stderr =>
    { test_file := test_file, passed := rc == 0, stdout := stdout,
      stderr := stderr,
      failures :=
        if !(rc == 0) && (_parse_failures (stdout ++ "\n" ++ stderr) test_file).isEmpty then
          _parse_failures (stdout ++ "\n" ++ stderr) test_file ++
            [execGenericFailure test_file rc (stdout ++ "\n" ++ stderr)]
        else _parse_failures (stdout ++ "\n" ++ stderr) test_file }
  | .timedOut =>
    { test_file := test_file, passed := false, stdout := "",
      stderr := "Test run timed out after 300 seconds.",
      failures := [logicFailure test_file "Timeout"] }
  | .spawnError msg =>
    { test_file := test_file, passed := false, stdout := "", stderr := msg,
      failures := [logicFailure test_file msg] }

/-! ## Improvement markers (docker_runner.run_tests and
_check_custom_markers, lines 30-89) -/

/-- The improvement-marker glyph scanned for by _check_custom_markers. -/
def markerGlyph : String := "❌"

/-- Text after the first marker on a line
(`line.split("❌", 1)[1]`, docker_runner.py line 77). -/
def markerAfter (l : String) : String :=
  match splitOnceStr l markerGlyph with
  | some p => p.2
  | none => ""

/-- One synthetic marker failure (docker_runner.py lines 77-85). -/
def mkMarkerFailure (test_file : String) (i : Nat) (l : String) : Failure :=
  let msg := pyStrip (markerAfter l)
  { file := test_file, line := (i : Int),
    error_message := "Improvement item: " ++ msg,
    bug_type := _classify_bug msg "" }

/-- The `enumerate(lines, 1)` scan of docker_runner.py lines 74-85. -/
def markerFailures (test_file : String) : Nat → List String → List Failure
  | _, [] => []
  | i, l :: rest =>
    if containsSub l markerGlyph then
      mkMarkerFailure test_file i l :: markerFailures test_file (i + 1) rest
    else markerFailures test_file (i + 1) rest

/-- Extensions accepted by _check_custom_markers (docker_runner.py
line 69). -/
def supportedExtensions : List String := [".py", ".js", ".ts", ".jsx", ".tsx"]

/-- docker_runner._check_custom_markers.  `content = none` models a path that
does not exist or is not a regular file; the body's `try` cannot raise in
this pure model (`read_text` uses `errors="replace"`), so the exception
branch returning the partial list never fires. -/
def _check_custom_markers (repo_path test_file : String)
    (content : Option String) : List Failure :=
  match content with
  | none => []
  | some c =>
    let ext := pyLowerStr (pathSuffix (joinPath repo_path test_file))
    if supportedExtensions.contains ext then
      markerFailures test_file 1 (pySplitLines c)
    else []

/-- Marker-merge deduplication key (docker_runner.py line 50):
`(line, error_message[:100])`. -/
def markerKey (f : Failure) : Int × String := (f.line, strTake f.error_message 100)

/-- First-occurrence deduplication for the marker merge
(docker_runner.py lines 47-53). -/
def markerDedupAux (seen : List (Int × String)) : List Failure → List Failure
  | [] => []
  | f :: rest =>
    if markerKey f ∈ seen then markerDedupAux seen rest
    else f :: markerDedupAux (markerKey f :: seen) rest

/-- docker_runner.run_tests: `res` models the Docker/local runner result and
`content` models the filesystem read of `repo_path/test_file`.  When markers
are found they are merged with the runner failures, deduplicated, and
`passed` is replaced by `False`; with no markers `res` is returned
unchanged. -/
def run_tests (res : TestResult) (repo_path test_file : String)
    (content : Option String) : TestResult :=
  let markers := _check_custom_markers repo_path test_file content
  if markers.isEmpty then res
  else
    let combined := res.failures ++ markers
    let unique := markerDedupAux [] combined
    { res with passed := false, failures := unique }

/-! ## PatchApplicationAgent (agents._apply_fix, lines 351-408) -/

/-- agents.py FixRecord dict (the constant `agent` field and the always-`None`
`sha` field are omitted; the optional `error` field never fires because the
oracle is a pure function here). -/
structure FixRecord where
  file : String
  bug_type : String
  line : Int
  error_message : String
  commit_message : String
  status : String
  iteration : Nat
deriving DecidableEq

/-- Explicit filesystem: resolved absolute path to file content. -/
abbrev FS := String → Option String

/-- The llm_client.generate_fix collaborator:
bug_type, file_path, line_number, error_message, original_code,
project_context to replacement content. -/
abbrev GenFix := String → String → Int → String → String → String → String

/-- The llm_client.explain_error collaborator: bug_type, error_message to a
commit message. -/
abbrev ExplainFn := String → String → String

/-- Write one file (models `Path.write_text`). -/
def fsWrite (fs : FS) (p c : String) : FS :=
  fun q => if q = p then some c else fs q

/-- agents._apply_fix: the vendored-segment guard, the existence check, the
oracle call and the echo/empty no-op branch; returns the FixRecord together
with the resulting filesystem. -/
def _apply_fix (fs : FS) (generateFix : GenFix) (explainError : ExplainFn)
    (repo_dir : String) (failure : Failure) (iteration : Nat)
    (project_context : String) : FixRecord × FS :=
  let src_file := failure.file
  let full_path := joinPath repo_dir src_file
  let fix0 : FixRecord :=
    { file := src_file, bug_type := failure.bug_type, line := failure.line,
      error_message := failure.error_message, commit_message := "",
      status := "failed", iteration := iteration }
  let fpath_str := replaceBackslash full_path
  if containsSub fpath_str "site-packages" || containsSub fpath_str ".venv" ||
     containsSub fpath_str "AppData" then
    (fix0, fs)
  else
    match fs (normalizePath full_path) with
    | none => (fix0, fs)
    | some original_code =>
      let fixed_code := generateFix failure.bug_type src_file failure.line
        failure.error_message original_code project_context
      if fixed_code ≠ "" ∧ fixed_code ≠ original_code then
        ({ fix0 with
             commit_message := explainError failure.bug_type failure.error_message,
             status := "fixed" },
         fsWrite fs (normalizePath full_path) fixed_code)
      else (fix0, fs)

/-- Modelled from the spec: the claim's guard "the resolved target path
lexically falls outside the repository root" — the joined path, with `..`
segments resolved, is neither the root nor below it.  agents.py has no such
check; this definition exists to state the claim. -/
def resolvesOutsideRoot (root rel : String) : Bool :=
  let full := normalizePath (joinPath root rel)
  !(startsWithStr full (root ++ "/") || full == root)

/-! ## TestExecutionCoordinator and HealingLoop
(agents.run_pipeline, lines 98-144) -/

/-- Aggregation of per-file results in completion order (agents.py
lines 116-123): a result's failures are appended only when its `passed` flag
is false.  Futures that raise are skipped and contribute nothing, so they do
not appear in the list. -/
def aggregateFailures (results : List TestResult) : List Failure :=
  results.foldl (fun acc r => if r.passed then acc else acc ++ r.failures) []

def MAX_RETRIES : Nat := 5

/-- agents.py iteration record (lines 132-138); the wall-clock timestamp
field is not modelled. -/
structure IterationRecord where
  iteration : Nat
  status : String
  failures_count : Nat
  message : String
deriving DecidableEq

/-- One CI-timeline entry (agents.py lines 131-138). -/
def mkIterationRecord (i : Nat) (fs : List Failure) : IterationRecord :=
  { iteration := i,
    status := if fs.isEmpty then "PASS" else "FAIL",
    failures_count := fs.length,
    message := if fs.isEmpty then "All tests passed"
               else toString fs.length ++ " failure(s) found" }

/-- The iterative heal loop of agents.run_pipeline (lines 98-144), with the
round's aggregated failure list abstracted as a function of the round index
(the fixing phase between rounds determines the next round's failures, which
is exactly what a deterministic TestRunner stub provides).  One record is
appended per executed round; the loop exits with "PASSED" at the first empty
round and with the initial "FAILED" when the retry budget is exhausted. -/
def healLoopAux (rf : Nat → List Failure) : Nat → Nat →
    List IterationRecord × String
  | 0, _ => ([], "FAILED")
  | fuel + 1, iter =>
    if (rf iter).isEmpty then ([mkIterationRecord iter (rf iter)], "PASSED")
    else
      (mkIterationRecord iter (rf iter) :: (healLoopAux rf fuel (iter + 1)).1,
       (healLoopAux rf fuel (iter + 1)).2)

/-- The heal loop over per-round runner results: round `i` aggregates
`results i` exactly as agents.py lines 109-125 do. -/
def run_pipeline_loop (results : Nat → List TestResult) :
    List IterationRecord × String :=
  healLoopAux (fun i => aggregateFailures (results i)) MAX_RETRIES 1

/-! ## Theorems -/

/-- C4 (counterexample): the claim "for every text containing both
`unused import` and `syntaxerror` (any case) the classifier returns SYNTAX"
is false: a text that additionally contains an INDENTATION keyword is
classified INDENTATION, because that category is tested first. -/
theorem c4_indentation_beats_syntax :
    _classify_bug "indentation unused import syntaxerror" "" = "INDENTATION" ∧
    _classify_bug "indentation unused import syntaxerror" "" ≠ "SYNTAX" ∧
    containsSub (pyLowerStr ("indentation unused import syntaxerror" ++ " " ++ ""))
      "unused import" = true ∧
    containsSub (pyLowerStr ("indentation unused import syntaxerror" ++ " " ++ ""))
      "syntaxerror" = true := by
  refine ⟨by decide, by decide, by decide, by decide⟩

/-- C4 (amended): the classifier lower-cases the concatenation of its inputs
and tests the keyword lists in order INDENTATION, SYNTAX, IMPORT, TYPE_ERROR,
LINTING, LOGIC.  For a text containing both `unused import` and
`syntaxerror`, the result is never LINTING, and it is SYNTAX provided no
INDENTATION keyword is also present. -/
theorem c4_syntax_priority_amended (text full_output : String)
    (_hu : containsSub (pyLowerStr (text ++ " " ++ full_output)) "unused import" = true)
    (hs : containsSub (pyLowerStr (text ++ " " ++ full_output)) "syntaxerror" = true) :
    _classify_bug text full_output ≠ "LINTING" ∧
    ((containsSub (pyLowerStr (text ++ " " ++ full_output)) "indentationerror" = false ∧
      containsSub (pyLowerStr (text ++ " " ++ full_output)) "unexpected indent" = false ∧
      containsSub (pyLowerStr (text ++ " " ++ full_output)) "indentation" = false) →
      _classify_bug text full_output = "SYNTAX") := by
  unfold _classify_bug
  set t := pyLowerStr (text ++ " " ++ full_output) with ht
  by_cases hI : (containsSub t "indentationerror" || containsSub t "unexpected indent" ||
      containsSub t "indentation") = true
  · constructor
    · simp only [classifyKeywords, hI, if_true]
      decide
    · rintro ⟨h1, h2, h3⟩
      rw [h1, h2, h3] at hI
      simp at hI
  · have hI' : (containsSub t "indentationerror" || containsSub t "unexpected indent" ||
        containsSub t "indentation") = false := by
      simpa using hI
    have hS : (containsSub t "syntaxerror" || containsSub t "invalid syntax" ||
        containsSub t "syntax" || containsSub t "colon" || containsSub t "missing") = true := by
      simp [hs]
    constructor
    · simp only [classifyKeywords, hI', hS, if_true, Bool.false_eq_true, if_false]
      decide
    · intro _
      simp only [classifyKeywords, hI', hS, if_true, Bool.false_eq_true, if_false]

/-- C4 (witness): the amended theorem applied to a concrete text with both
keywords and no indentation keyword. -/
theorem c4_syntax_priority_witness :
    _classify_bug "plain unused import syntaxerror here" "" = "SYNTAX" ∧
    _classify_bug "plain unused import syntaxerror here" "" ≠ "LINTING" := by
  refine ⟨(c4_syntax_priority_amended "plain unused import syntaxerror here" ""
    (by decide) (by decide)).2 ⟨by decide, by decide, by decide⟩,
    (c4_syntax_priority_amended "plain unused import syntaxerror here" ""
    (by decide) (by decide)).1⟩

/-- C2 (counterexample): the claim that a completed result's failures are
merged unconditionally, independent of the `passed` flag, is false: a result
with `passed = true` and a non-empty failure list contributes nothing to the
round's aggregate (agents.py line 122 merges only when `passed` is false). -/
theorem c2_passed_result_failures_dropped :
    aggregateFailures
      [{ test_file := "t.py", passed := true, stdout := "", stderr := "",
         failures := [{ file := "t.py", line := 1, error_message := "oops",
                        bug_type := "LOGIC" }] }] = [] ∧
    ({ test_file := "t.py", passed := true, stdout := "", stderr := "",
       failures := [{ file := "t.py", line := 1, error_message := "oops",
                      bug_type := "LOGIC" }] } : TestResult).failures ≠ [] := by
  refine ⟨by decide, by decide⟩

/-- Membership in the completion-order fold of agents.py lines 116-123. -/
theorem aggregateFailures_foldl_mem (rs : List TestResult) :
    ∀ (acc : List Failure) (f : Failure),
      (f ∈ rs.foldl (fun a r => if r.passed then a else a ++ r.failures) acc) ↔
      (f ∈ acc ∨ ∃ r, r ∈ rs ∧ r.passed = false ∧ f ∈ r.failures) := by
  induction rs with
  | nil => intro acc f; simp
  | cons r rs ih =>
    intro acc f
    by_cases hp : r.passed
    · simp only [List.foldl_cons, hp, if_true, ih, List.mem_cons]
      constructor
      · rintro (h | ⟨r', hr', hpass, hf⟩)
        · exact Or.inl h
        · exact Or.inr ⟨r', ⟨Or.inr hr', hpass, hf⟩⟩
      · rintro (h | ⟨r', hr' | hr', hpass, hf⟩)
        · exact Or.inl h
        · rw [← hr'] at hp; rw [hp] at hpass; cases hpass
        · exact Or.inr ⟨r', hr', hpass, hf⟩
    · have hp' : r.passed = false := by simpa using hp
      simp only [List.foldl_cons, hp', if_false, ih, List.mem_append, List.mem_cons,
        Bool.false_eq_true]
      constructor
      · rintro ((h | h) | ⟨r', hr', hpass, hf⟩)
        · exact Or.inl h
        · exact Or.inr ⟨r, Or.inl rfl, hp', h⟩
        · exact Or.inr ⟨r', Or.inr hr', hpass, hf⟩
      · rintro (h | ⟨r', hr' | hr', hpass, hf⟩)
        · exact Or.inl (Or.inl h)
        · subst hr'; exact Or.inl (Or.inr hf)
        · exact Or.inr ⟨r', hr', hpass, hf⟩

/-- C2 (amended): a failure is in the round's aggregated list exactly when it
belongs to a completed result whose `passed` flag is false — the merge is
conditional on the flag, not unconditional. -/
theorem c2_merge_iff_not_passed (results : List TestResult) (f : Failure) :
    f ∈ aggregateFailures results ↔
    ∃ r, r ∈ results ∧ r.passed = false ∧ f ∈ r.failures := by
  unfold aggregateFailures
  rw [aggregateFailures_foldl_mem]
  simp

/-- C8 (confirmed): when the patch oracle returns content equal to the
original file content, or empty content, _apply_fix reports
`status = "failed"` and the filesystem is unchanged — the guard
`if fixed_code and fixed_code != original_code` (agents.py line 395) skips
the write in both cases. -/
theorem c8_noop_no_write (fs : FS) (gen : GenFix) (expl : ExplainFn)
    (repo_dir : String) (failure : Failure) (iteration : Nat)
    (project_context orig : String)
    (h1 : fs (normalizePath (joinPath repo_dir failure.file)) = some orig)
    (h2 : gen failure.bug_type failure.file failure.line failure.error_message
            orig project_context = orig ∨
          gen failure.bug_type failure.file failure.line failure.error_message
            orig project_context = "") :
    (_apply_fix fs gen expl repo_dir failure iteration project_context).1.status
      = "failed" ∧
    (_apply_fix fs gen expl repo_dir failure iteration project_context).2 = fs := by
  unfold _apply_fix
  by_cases hg : (containsSub (replaceBackslash (joinPath repo_dir failure.file))
      "site-packages" ||
      containsSub (replaceBackslash (joinPath repo_dir failure.file)) ".venv" ||
      containsSub (replaceBackslash (joinPath repo_dir failure.file)) "AppData") = true
  · rw [if_pos hg]
    exact ⟨rfl, rfl⟩
  · rw [if_neg hg, h1]
    dsimp only
    have hcond : ¬(gen failure.bug_type failure.file failure.line
        failure.error_message orig project_context ≠ "" ∧
        gen failure.bug_type failure.file failure.line failure.error_message
          orig project_context ≠ orig) := by
      rintro ⟨hne, hneq⟩
      rcases h2 with h2 | h2
      · exact hneq h2
      · exact hne h2
    rw [if_neg hcond]
    exact ⟨rfl, rfl⟩

/-- C8 (witness): an oracle that echoes its input on an existing file. -/
theorem c8_noop_no_write_witness :
    (_apply_fix (fun p => if p = "/repo/a.py" then some "x = 1" else none)
       (fun _ _ _ _ orig _ => orig) (fun _ _ => "") "/repo"
       { file := "a.py", line := 1, error_message := "NameError: x",
         bug_type := "LOGIC" } 1 "").1.status = "failed" ∧
    (_apply_fix (fun p => if p = "/repo/a.py" then some "x = 1" else none)
       (fun _ _ _ _ orig _ => orig) (fun _ _ => "") "/repo"
       { file := "a.py", line := 1, error_message := "NameError: x",
         bug_type := "LOGIC" } 1 "").2 =
      (fun p => if p = "/repo/a.py" then some "x = 1" else none) := by
  exact c8_noop_no_write (fun p => if p = "/repo/a.py" then some "x = 1" else none)
    (fun _ _ _ _ orig _ => orig) (fun _ _ => "") "/repo"
    { file := "a.py", line := 1, error_message := "NameError: x",
      bug_type := "LOGIC" } 1 "" "x = 1" (by decide) (Or.inl rfl)

/-- Concrete probe filesystem for the path-traversal evaluation: the run's
repository root is `/repo` and `/etc/passwd` exists outside it. -/
def c1fsProbe : FS := fun p => if p = "/etc/passwd" then some "root:x:0:0" else none

/-- A patch oracle returning fresh non-empty content. -/
def c1oracle : GenFix := fun _ _ _ _ _ _ => "pwned"

def c1explain : ExplainFn := fun _ _ => "msg"

/-- A failure record whose file path climbs out of the repository root. -/
def c1failureProbe : Failure :=
  { file := "../../etc/passwd", line := 0, error_message := "SyntaxError: x",
    bug_type := "SYNTAX" }

/-- C1 (code bug): agents._apply_fix guards only against the substrings
`site-packages`, `.venv` and `AppData` (agents.py line 376) and never checks
that the joined path stays inside the repository root, so on a failure whose
path resolves outside the root (here `/repo/../../etc/passwd`, i.e.
`/etc/passwd`) it reads the outside file, writes the oracle's content to it,
and returns `status = "fixed"` — the spec's boundary rejection
(`status = "failed"`, no write) does not hold. -/
theorem c1_path_traversal_eval :
    resolvesOutsideRoot "/repo" "../../etc/passwd" = true ∧
    (_apply_fix c1fsProbe c1oracle c1explain "/repo" c1failureProbe 1 "").1.status
      = "fixed" ∧
    (_apply_fix c1fsProbe c1oracle c1explain "/repo" c1failureProbe 1 "").2
      "/etc/passwd" = some "pwned" := by
  refine ⟨by decide, by decide, by decide⟩

/-- Every element surviving deduplication has a key outside the `seen` set. -/
theorem dedupAux_key_not_seen :
    ∀ (l : List Failure) (seen : List (String × Int × String)) (f : Failure),
      f ∈ dedupAux seen l → failKey f ∉ seen := by
  intro l
  induction l with
  | nil => intro seen f h; simp [dedupAux] at h
  | cons g rest ih =>
    intro seen f h
    by_cases hg : failKey g ∈ seen
    · rw [dedupAux, if_pos hg] at h
      exact ih seen f h
    · rw [dedupAux, if_neg hg] at h
      rcases List.mem_cons.mp h with h | h
      · subst h; exact hg
      · intro hmem
        exact (ih (failKey g :: seen) f h) (List.mem_cons_of_mem _ hmem)

/-- Deduplication output is pairwise key-distinct. -/
theorem dedupAux_pairwise :
    ∀ (l : List Failure) (seen : List (String × Int × String)),
      (dedupAux seen l).Pairwise (fun a b => failKey a ≠ failKey b) := by
  intro l
  induction l with
  | nil => intro seen; simp [dedupAux]
  | cons g rest ih =>
    intro seen
    by_cases hg : failKey g ∈ seen
    · rw [dedupAux, if_pos hg]; exact ih seen
    · rw [dedupAux, if_neg hg]
      refine List.Pairwise.cons ?_ (ih (failKey g :: seen))
      intro b hb heq
      have := dedupAux_key_not_seen rest (failKey g :: seen) b hb
      exact this (by rw [← heq]; exact List.mem_cons_self _ _)

/-- Elements surviving deduplication come from the input list. -/
theorem dedupAux_subset :
    ∀ (l : List Failure) (seen : List (String × Int × String)) (f : Failure),
      f ∈ dedupAux seen l → f ∈ l := by
  intro l
  induction l with
  | nil => intro seen f h; simp [dedupAux] at h
  | cons g rest ih =>
    intro seen f h
    by_cases hg : failKey g ∈ seen
    · rw [dedupAux, if_pos hg] at h
      exact List.mem_cons_of_mem _ (ih seen f h)
    · rw [dedupAux, if_neg hg] at h
      rcases List.mem_cons.mp h with h | h
      · exact h ▸ List.mem_cons_self _ _
      · exact List.mem_cons_of_mem _ (ih _ f h)

/-- C9 (confirmed): _parse_failures is a pure function — two calls on the
same combined output and test file give equal lists — and its result is
deduplicated by the key `(file, line, error_message[:100])`: no two elements
of any result share that key, so re-parsing output that repeats a line whose
failure already contributed a key can never put a second failure with that
key in the result. -/
theorem c9_parse_deterministic_dedup (output test_file : String) :
    _parse_failures output test_file = _parse_failures output test_file ∧
    (_parse_failures output test_file).Pairwise
      (fun a b => failKey a ≠ failKey b) := by
  refine ⟨rfl, ?_⟩
  unfold _parse_failures
  exact dedupAux_pairwise _ []

/-- Under lines with neither tier-1 entry shape, the tier-1 scan finds
nothing. -/
theorem parseTier1_nil (output : String) (lines : List String)
    (h : ∀ l ∈ lines, entryA (pyStrip l) = false ∧ entryB (pyStrip l) = false) :
    parseTier1 output lines = [] := by
  induction lines with
  | nil => rfl
  | cons l rest ih =>
    have hl := h l (List.mem_cons_self _ _)
    rw [parseTier1]
    simp only [hl.1, hl.2, Bool.false_eq_true, if_false]
    exact ih (fun x hx => h x (List.mem_cons_of_mem _ hx))

/-- Every tier-2 failure is attributed to the test file with line 0. -/
theorem parseTier2_mem (output test_file : String) (lines : List String)
    (f : Failure) (h : f ∈ parseTier2 output test_file lines) :
    f.file = test_file ∧ f.line = 0 := by
  unfold parseTier2 at h
  rcases List.mem_filterMap.mp h with ⟨l, _, hl⟩
  by_cases ht : tier2Trigger l = true
  · rw [if_pos ht] at hl
    cases hl
    exact ⟨rfl, rfl⟩
  · rw [if_neg ht] at hl
    cases hl

/-- A trigger line makes the tier-2 scan non-empty. -/
theorem parseTier2_ne_nil (output test_file : String) (lines : List String)
    (l : String) (hl : l ∈ lines) (ht : tier2Trigger l = true) :
    parseTier2 output test_file lines ≠ [] := by
  intro hnil
  unfold parseTier2 at hnil
  rw [List.filterMap_eq_nil_iff] at hnil
  have := hnil l hl
  rw [if_pos ht] at this
  cases this

/-- C7 (confirmed): when no line of the combined output matches either tier-1
shape (the `File "<path>", line <N>` entry and the `<path>:<line>: <message>`
entry), every parsed failure is attributed to the test file itself with
line 0, and any line containing `::ERROR` or both `FAILED` and `::`
guarantees at least one such failure. -/
theorem c7_tier2_fallback (output test_file : String)
    (h : (pySplitLines output).all
      (fun l => !(entryA (pyStrip l)) && !(entryB (pyStrip l))) = true) :
    (∀ f ∈ _parse_failures output test_file,
       f.file = test_file ∧ f.line = 0) ∧
    ((pySplitLines output).any tier2Trigger = true →
       _parse_failures output test_file ≠ []) := by
  have h' : ∀ l ∈ pySplitLines output,
      entryA (pyStrip l) = false ∧ entryB (pyStrip l) = false := by
    intro l hl
    have := (List.all_eq_true.mp h) l hl
    rw [Bool.and_eq_true, Bool.not_eq_true', Bool.not_eq_true'] at this
    exact this
  have ht1 : parseTier1 output (pySplitLines output) = [] :=
    parseTier1_nil output (pySplitLines output) h'
  constructor
  · intro f hf
    unfold _parse_failures at hf
    rw [ht1] at hf
    simp only [List.isEmpty_nil, if_true] at hf
    exact parseTier2_mem output test_file (pySplitLines output) f
      (dedupAux_subset _ [] f hf)
  · intro hany
    rcases List.any_eq_true.mp hany with ⟨l, hl, htrig⟩
    unfold _parse_failures
    rw [ht1]
    simp only [List.isEmpty_nil, if_true]
    have hne := parseTier2_ne_nil output test_file (pySplitLines output) l hl htrig
    cases hpt : parseTier2 output test_file (pySplitLines output) with
    | nil => exact absurd hpt hne
    | cons g rest =>
      rw [dedupAux]
      simp only [List.not_mem_nil, if_neg (fun h => h)]
      intro hcons
      cases hcons

/-- C5 (counterexample): the claim that an AppData path produces no failure
under either tier-1 shape is false for the `File "<path>", line <N>` shape:
its filter (docker_runner.py line 289) checks only `site-packages` and
`.venv`, so an AppData traceback line is attributed. -/
theorem c5_appdata_not_filtered_shape_a :
    _parse_failures
      "  File \"C:\\Users\\u\\AppData\\pkg\\mod.py\", line 3\nSyntaxError: invalid syntax"
      "t.py" =
      [{ file := "C:\\Users\\u\\AppData\\pkg\\mod.py", line := 3,
         error_message := "SyntaxError: invalid syntax", bug_type := "SYNTAX" }] ∧
    containsSub "C:\\Users\\u\\AppData\\pkg\\mod.py" "AppData" = true := by
  refine ⟨by decide, by decide⟩

/-- C5 (amended): under the `<path>:<line>: <message>` shape any line
containing `site-packages`, `.venv` or `AppData` is skipped, and under the
`File "<path>", line <N>` shape raw paths containing `site-packages` or
`.venv` are discarded — but AppData is not filtered under the latter shape
(see the counterexample). -/
theorem c5_vendored_filtering_amended :
    (∀ (line : String) (rest : List String) (output : String),
       (containsSub (shapeARawPath line) "site-packages" = true ∨
        containsSub (shapeARawPath line) ".venv" = true) →
       processShapeA line rest output = none) ∧
    (∀ (line output : String),
       (containsSub line "site-packages" = true ∨ containsSub line ".venv" = true ∨
        containsSub line "AppData" = true) →
       processShapeB line output = none) := by
  constructor
  · intro line rest output h
    unfold processShapeA
    cases hn : shapeALineNo line with
    | none => rfl
    | some lineno =>
      rcases h with h | h <;> simp [h]
  · intro line output h
    unfold processShapeB
    rcases h with h | h | h <;> simp [h]

/-- C5 (witness): the amended filters applied to a site-packages traceback
line (shape a) and a `.venv` colon-delimited line (shape b). -/
theorem c5_vendored_filtering_witness :
    processShapeA "File \"/usr/lib/site-packages/x.py\", line 2" [] "" = none ∧
    processShapeB "x/.venv/a.py:3: Err" "" = none := by
  refine ⟨c5_vendored_filtering_amended.1 _ [] "" (Or.inl (by decide)),
    c5_vendored_filtering_amended.2 _ "" (Or.inr (Or.inl (by decide)))⟩

/-- The marker scan finds exactly one failure per marker-bearing line. -/
theorem markerFailures_length (test_file : String) :
    ∀ (i : Nat) (ls : List String),
      (markerFailures test_file i ls).length =
        ls.countP (fun l => containsSub l markerGlyph) := by
  intro i ls
  induction ls generalizing i with
  | nil => rfl
  | cons l rest ih =>
    rw [markerFailures]
    by_cases hl : containsSub l markerGlyph = true
    · rw [if_pos hl]
      simp [List.countP_cons, hl, ih]
    · rw [if_neg hl]
      have hl' : containsSub l markerGlyph = false := by simpa using hl
      simp [List.countP_cons, hl', ih]

/-- Every marker failure is attributed to the scanned file and carries the
stripped text after the marker, prefixed with `Improvement item: `. -/
theorem markerFailures_mem (test_file : String) :
    ∀ (i : Nat) (ls : List String) (f : Failure),
      f ∈ markerFailures test_file i ls →
      f.file = test_file ∧ ∃ l ∈ ls, containsSub l markerGlyph = true ∧
        f.error_message = "Improvement item: " ++ pyStrip (markerAfter l) := by
  intro i ls
  induction ls generalizing i with
  | nil => intro f h; simp [markerFailures] at h
  | cons l rest ih =>
    intro f h
    rw [markerFailures] at h
    by_cases hl : containsSub l markerGlyph = true
    · rw [if_pos hl] at h
      rcases List.mem_cons.mp h with h | h
      · subst h
        exact ⟨rfl, l, List.mem_cons_self _ _, hl, rfl⟩
      · rcases ih (i + 1) f h with ⟨hfile, l', hl', hm, he⟩
        exact ⟨hfile, l', List.mem_cons_of_mem _ hl', hm, he⟩
    · rw [if_neg hl] at h
      rcases ih (i + 1) f h with ⟨hfile, l', hl', hm, he⟩
      exact ⟨hfile, l', List.mem_cons_of_mem _ hl', hm, he⟩

/-- C6 (counterexample): the claim that a non-empty merged failure set always
forces `passed = false` is false: when the marker scan finds nothing,
run_tests returns the runner result unchanged (docker_runner.py line 56), so
a runner result with `passed = true` and a non-empty failure list keeps
`passed = true`. -/
theorem c6_passed_with_failures_unchanged :
    run_tests
      { test_file := "t.py", passed := true, stdout := "", stderr := "",
        failures := [{ file := "t.py", line := 1, error_message := "oops",
                       bug_type := "LOGIC" }] }
      "/repo" "t.py" (some "x = 1") =
      { test_file := "t.py", passed := true, stdout := "", stderr := "",
        failures := [{ file := "t.py", line := 1, error_message := "oops",
                       bug_type := "LOGIC" }] } ∧
    ({ test_file := "t.py", passed := true, stdout := "", stderr := "",
       failures := [{ file := "t.py", line := 1, error_message := "oops",
                      bug_type := "LOGIC" }] } : TestResult).failures ≠ [] ∧
    ({ test_file := "t.py", passed := true, stdout := "", stderr := "",
       failures := [{ file := "t.py", line := 1, error_message := "oops",
                      bug_type := "LOGIC" }] } : TestResult).passed = true := by
  refine ⟨by decide, by decide, by decide⟩

/-- C6 (amended): a file whose runner result is passing and failure-free but
whose source holds exactly one marker line yields `passed = false` with
exactly one synthetic `Improvement item: ` failure; whenever the marker scan
finds at least one marker, `passed` is forced to false regardless of the
runner's verdict; when it finds none, the runner result is returned unchanged
(so a passing verdict with non-empty runner failures is not overridden). -/
theorem c6_marker_override_amended (res : TestResult)
    (repo_path test_file c : String)
    (_hp : res.passed = true) (hf : res.failures = [])
    (hext : supportedExtensions.contains
      (pyLowerStr (pathSuffix (joinPath repo_path test_file))) = true)
    (hcount : (pySplitLines c).countP (fun l => containsSub l markerGlyph) = 1) :
    ((run_tests res repo_path test_file (some c)).passed = false ∧
     (run_tests res repo_path test_file (some c)).failures.length = 1 ∧
     ∀ f ∈ (run_tests res repo_path test_file (some c)).failures,
       f.file = test_file ∧ ∃ l ∈ pySplitLines c,
         containsSub l markerGlyph = true ∧
         f.error_message = "Improvement item: " ++ pyStrip (markerAfter l)) ∧
    (∀ (res2 : TestResult) (rp tf : String) (content : Option String),
       _check_custom_markers rp tf content ≠ [] →
       (run_tests res2 rp tf content).passed = false) ∧
    (∀ (res2 : TestResult) (rp tf : String) (content : Option String),
       _check_custom_markers rp tf content = [] →
       run_tests res2 rp tf content = res2) := by
  have hmarkers : _check_custom_markers repo_path test_file (some c) =
      markerFailures test_file 1 (pySplitLines c) := by
    simp only [_check_custom_markers]
    rw [if_pos hext]
  have hlen : (markerFailures test_file 1 (pySplitLines c)).length = 1 := by
    rw [markerFailures_length]; exact hcount
  rcases List.length_eq_one.mp hlen with ⟨m, hm⟩
  have hmem : m ∈ markerFailures test_file 1 (pySplitLines c) := by
    rw [hm]; exact List.mem_cons_self _ _
  refine ⟨?_, ?_, ?_⟩
  · have hrun : run_tests res repo_path test_file (some c) =
        { res with passed := false, failures := [m] } := by
      rw [run_tests, hmarkers, hm]
      simp [markerDedupAux, hf]
    rw [hrun]
    refine ⟨rfl, rfl, ?_⟩
    intro f hfm
    rcases List.mem_singleton.mp hfm with rfl
    exact markerFailures_mem test_file 1 (pySplitLines c) f hmem
  · intro res2 rp tf content hne
    rw [run_tests]
    have : (_check_custom_markers rp tf content).isEmpty = false := by
      cases h : _check_custom_markers rp tf content with
      | nil => exact absurd h hne
      | cons a l => rfl
    rw [this]
    simp
  · intro res2 rp tf content hnil
    rw [run_tests, hnil]
    rfl

/-- C6 (witness): the amended theorem applied to a passing, failure-free
runner result on a Python file whose source has exactly one marker line. -/
theorem c6_marker_override_witness :
    (run_tests
       { test_file := "m.py", passed := true, stdout := "", stderr := "",
         failures := [] } "/repo" "m.py"
       (some "x = 1\n# ❌ unused import\n")).passed = false ∧
    (run_tests
       { test_file := "m.py", passed := true, stdout := "", stderr := "",
         failures := [] } "/repo" "m.py"
       (some "x = 1\n# ❌ unused import\n")).failures.length = 1 := by
  have h := c6_marker_override_amended
    { test_file := "m.py", passed := true, stdout := "", stderr := "",
      failures := [] } "/repo" "m.py" "x = 1\n# ❌ unused import\n"
    (by decide) (by decide) (by decide) (by decide)
  exact ⟨h.1.1, h.1.2.1⟩

theorem listIsEmptyIff {α : Type} (l : List α) : l.isEmpty = true ↔ l = [] := by
  cases l <;> simp

/-- The heal loop never runs more rounds than its fuel. -/
theorem healLoopAux_length_le (rf : Nat → List Failure) :
    ∀ (fuel iter : Nat), (healLoopAux rf fuel iter).1.length ≤ fuel := by
  intro fuel
  induction fuel with
  | zero => intro iter; simp [healLoopAux]
  | succ n ih =>
    intro iter
    rw [healLoopAux]
    by_cases h : (rf iter).isEmpty = true
    · rw [if_pos h]; simp
    · rw [if_neg h]
      simp only [List.length_cons]
      exact Nat.succ_le_succ (ih (iter + 1))

/-- The heal loop appends exactly one record per executed round, numbered
consecutively from the starting round. -/
theorem healLoopAux_iterations (rf : Nat → List Failure) :
    ∀ (fuel iter : Nat),
      (healLoopAux rf fuel iter).1.map (fun r => r.iteration) =
        List.range' iter (healLoopAux rf fuel iter).1.length := by
  intro fuel
  induction fuel with
  | zero => intro iter; simp [healLoopAux]
  | succ n ih =>
    intro iter
    rw [healLoopAux]
    by_cases h : (rf iter).isEmpty = true
    · rw [if_pos h]
      simp [mkIterationRecord, List.range']
    · rw [if_neg h]
      simp only [List.map_cons, List.length_cons, mkIterationRecord,
        List.range'_succ, List.cons.injEq]
      exact ⟨trivial, ih (iter + 1)⟩

/-- The heal loop stops with "PASSED" at the first empty round. -/
theorem healLoopAux_first_empty (rf : Nat → List Failure) :
    ∀ (fuel iter k : Nat), iter ≤ k → k < iter + fuel → rf k = [] →
      (∀ j, iter ≤ j → j < k → rf j ≠ []) →
      (healLoopAux rf fuel iter).1.length = k + 1 - iter ∧
      (healLoopAux rf fuel iter).2 = "PASSED" := by
  intro fuel
  induction fuel with
  | zero =>
    intro iter k h1 h2 _ _
    exact absurd h2 (by omega)
  | succ n ih =>
    intro iter k h1 h2 hk hbefore
    rw [healLoopAux]
    by_cases h : (rf iter).isEmpty = true
    · rw [if_pos h]
      have hik : k = iter := by
        by_contra hne
        exact hbefore iter le_rfl (by omega) ((listIsEmptyIff _).mp h)
      subst hik
      exact ⟨by simp only [List.length_singleton]; omega, rfl⟩
    · rw [if_neg h]
      have hik : iter ≠ k := by
        intro he
        rw [he, hk] at h
        exact h rfl
      obtain ⟨hl, hs⟩ := ih (iter + 1) k (by omega) (by omega) hk
        (fun j hj1 hj2 => hbefore j (by omega) hj2)
      exact ⟨by simp only [List.length_cons, hl]; omega, hs⟩

/-- With every round failing, the heal loop exhausts its fuel and reports
"FAILED". -/
theorem healLoopAux_all_fail (rf : Nat → List Failure) :
    ∀ (fuel iter : Nat), (∀ j, iter ≤ j → j < iter + fuel → rf j ≠ []) →
      (healLoopAux rf fuel iter).1.length = fuel ∧
      (healLoopAux rf fuel iter).2 = "FAILED" := by
  intro fuel
  induction fuel with
  | zero => intro iter _; simp [healLoopAux]
  | succ n ih =>
    intro iter hall
    rw [healLoopAux]
    have hne : rf iter ≠ [] := hall iter le_rfl (by omega)
    have h : ¬((rf iter).isEmpty = true) := by
      rw [listIsEmptyIff]; exact hne
    rw [if_neg h]
    obtain ⟨hl, hs⟩ := ih (iter + 1) (fun j h1 h2 => hall j (by omega) (by omega))
    exact ⟨by simp only [List.length_cons, hl], hs⟩

/-- C3 (confirmed): the heal loop runs at most MAX_RETRIES rounds, appending
one numbered IterationRecord per executed round; it stops with overall
status "PASSED" at the first round whose aggregated failure set is empty
(a runner failing every round before k and passing at round k ≤ 5 yields
exactly k records), and when all MAX_RETRIES rounds fail it performs exactly
MAX_RETRIES rounds and reports "FAILED". -/
theorem c3_heal_loop_bounds (results : Nat → List TestResult) :
    (run_pipeline_loop results).1.length ≤ MAX_RETRIES ∧
    ((run_pipeline_loop results).1.map (fun r => r.iteration) =
      List.range' 1 (run_pipeline_loop results).1.length) ∧
    (∀ k, 1 ≤ k → k ≤ MAX_RETRIES →
      aggregateFailures (results k) = [] →
      (∀ j, 1 ≤ j → j < k → aggregateFailures (results j) ≠ []) →
      (run_pipeline_loop results).1.length = k ∧
      (run_pipeline_loop results).2 = "PASSED") ∧
    ((∀ i, 1 ≤ i → i ≤ MAX_RETRIES → aggregateFailures (results i) ≠ []) →
      (run_pipeline_loop results).1.length = MAX_RETRIES ∧
      (run_pipeline_loop results).2 = "FAILED") := by
  refine ⟨healLoopAux_length_le _ MAX_RETRIES 1,
    healLoopAux_iterations _ MAX_RETRIES 1, ?_, ?_⟩
  · intro k h1 h2 hk hb
    have h2' : k ≤ 5 := h2
    have hfe := healLoopAux_first_empty (fun i => aggregateFailures (results i))
      MAX_RETRIES 1 k h1 (by show k < 1 + 5; omega) hk hb
    refine ⟨?_, hfe.2⟩
    have := hfe.1
    rw [run_pipeline_loop, this]
    omega
  · intro hall
    exact healLoopAux_all_fail _ MAX_RETRIES 1
      (fun j hj1 hj2 => hall j hj1 (by have : j < 1 + 5 := hj2; omega))

/-- Round stub: one failing test result. -/
def c3FailingResult : TestResult :=
  { test_file := "t.py", passed := false, stdout := "", stderr := "",
    failures := [{ file := "t.py", line := 0, error_message := "e",
                   bug_type := "LOGIC" }] }

/-- Deterministic runner stub failing round 1 and passing from round 2 on. -/
def c3ResultsConverge : Nat → List TestResult :=
  fun i => if i = 1 then [c3FailingResult] else []

/-- Deterministic runner stub failing every round. -/
def c3ResultsAlwaysFail : Nat → List TestResult := fun _ => [c3FailingResult]

/-- C3 (witness): the loop-convergence and max-retry scenarios of the spec,
via the bounds theorem. -/
theorem c3_heal_loop_bounds_witness :
    ((run_pipeline_loop c3ResultsConverge).1.length = 2 ∧
     (run_pipeline_loop c3ResultsConverge).2 = "PASSED") ∧
    ((run_pipeline_loop c3ResultsAlwaysFail).1.length = MAX_RETRIES ∧
     (run_pipeline_loop c3ResultsAlwaysFail).2 = "FAILED") := by
  constructor
  · exact (c3_heal_loop_bounds c3ResultsConverge).2.2.1 2 (by decide) (by decide)
      (by decide)
      (fun j hj1 hj2 => by
        have hj : j = 1 := by omega
        subst hj
        decide)
  · exact (c3_heal_loop_bounds c3ResultsAlwaysFail).2.2.2
      (fun i _ _ => by
        show aggregateFailures [c3FailingResult] ≠ []
        decide)

/-- C10 (confirmed): every failed execution — nonzero return code, timeout,
or spawn exception — yields `passed = false` with a non-empty failure list;
a nonzero exit whose output parses to nothing gets the single generic
return-code LOGIC failure, a timeout gets exactly the LOGIC failure
"Timeout", and a spawn exception gets exactly one LOGIC failure carrying the
exception text; the embedded function is total, mirroring the Python
function's never-raising contract. -/
theorem c10_failed_execution_failures (test_file : String) (proc : ProcOutcome)
    (h : procFailed proc = true) :
    (_execute_and_parse test_file proc).passed = false ∧
    (_execute_and_parse test_file proc).failures ≠ [] ∧
    (proc = ProcOutcome.timedOut →
      (_execute_and_parse test_file proc).failures =
        [logicFailure test_file "Timeout"]) ∧
    (∀ msg, proc = ProcOutcome.spawnError msg →
      (_execute_and_parse test_file proc).failures =
        [logicFailure test_file msg]) ∧
    (∀ rc stdout stderr, proc = ProcOutcome.completed rc stdout stderr →
      _parse_failures (stdout ++ "\n" ++ stderr) test_file = [] →
      (_execute_and_parse test_file proc).failures =
        [execGenericFailure test_file rc (stdout ++ "\n" ++ stderr)]) := by
  cases proc with
  | completed rc stdout stderr =>
    have hrc : (rc == 0) = false := by
      simp only [procFailed, bne] at h
      simpa using h
    refine ⟨by simp [_execute_and_parse, hrc], ?_, ?_, ?_, ?_⟩
    · simp only [_execute_and_parse, hrc, Bool.not_false, Bool.true_and]
      by_cases hp : _parse_failures (stdout ++ "\n" ++ stderr) test_file = []
      · simp [hp]
      · have hie : (_parse_failures (stdout ++ "\n" ++ stderr) test_file).isEmpty
            = false := by
          cases hl : _parse_failures (stdout ++ "\n" ++ stderr) test_file with
          | nil => exact absurd hl hp
          | cons a l => rfl
        rw [hie]
        simpa using hp
    · intro heq; cases heq
    · intro msg heq; cases heq
    · intro rc' o' e' heq hp
      cases heq
      simp [_execute_and_parse, hrc, hp]
  | timedOut =>
    refine ⟨rfl, by simp [_execute_and_parse], fun _ => rfl, ?_, ?_⟩
    · intro msg heq; cases heq
    · intro rc o e heq; cases heq
  | spawnError m =>
    refine ⟨rfl, by simp [_execute_and_parse], ?_, ?_, ?_⟩
    · intro heq; cases heq
    · intro msg heq
      cases heq
      rfl
    · intro rc o e heq; cases heq

/-- C10 (witness): the theorem applied to a timed-out execution. -/
theorem c10_failed_execution_failures_witness :
    (_execute_and_parse "t.py" ProcOutcome.timedOut).passed = false ∧
    (_execute_and_parse "t.py" ProcOutcome.timedOut).failures =
      [logicFailure "t.py" "Timeout"] := by
  have h := c10_failed_execution_failures "t.py" ProcOutcome.timedOut rfl
  exact ⟨h.1, h.2.2.1 rfl⟩

/-- C7 (witness): the theorem applied to the pytest summary line
`FAILED tests/foo.py::test_bar`, which matches neither tier-1 shape. -/
theorem c7_tier2_fallback_witness :
    (∀ f ∈ _parse_failures "FAILED tests/foo.py::test_bar" "tests/foo.py",
       f.file = "tests/foo.py" ∧ f.line = 0) ∧
    _parse_failures "FAILED tests/foo.py::test_bar" "tests/foo.py" ≠ [] := by
  have h := c7_tier2_fallback "FAILED tests/foo.py::test_bar" "tests/foo.py"
    (by decide)
  exact ⟨h.1, h.2 (by decide)⟩

end AIHeal
